import Mathlib

/-!
# Verification of the A-Station → V-Station SysEx transcoder

Shallow embedding of `src/A2Vstation.c` (the single `main` loop) and proofs
about its behaviour.  The C program reads one byte at a time into a buffer,
tracks a `counter` (initialised to `-1`), validates the buffered header when
an end-of-exclusive byte arrives, patches the device id at buffer offset 5,
and writes buffer bytes `0..counter` to the output file.

Modelling choices, each mirroring a line of the source:
* the byte stream is a `List Nat` (each element a byte value);
* the malloc'd buffer is a total function `Nat → Nat`, initially all zeros
  (malloc'd memory is unspecified in C; only diagnostics can ever observe a
  stale/unwritten cell, never the emitted bytes of a well-formed frame);
  the source performs no bounds check on the buffer pointer, so the model
  imposes no bound either;
* `fprintf(stdout, "[INFO] …\n", …)` lines are modelled by `diagLine`,
  recording the formatted text after the `"[INFO] "` channel tag and
  without the trailing newline (pure presentation of the info channel);
* each `return EXIT_FAILURE` site becomes a distinct `TranscodeError`
  constructor, named after the spec's error taxonomy; the bytes already
  written to the output file at that point are retained in the result,
  matching the incrementally written output file.
-/

namespace A2V

/-- `SOX 0xF0`: start of exclusive (`#define SOX` in the source). -/
def SOX : Nat := 0xF0

/-- `EOX 0xF7`: end of exclusive. -/
def EOX : Nat := 0xF7

/-- Novation vendor id byte 1 (`#define NOVID1 0x00`). -/
def NOVID1 : Nat := 0x00

/-- Novation vendor id byte 2 (`#define NOVID2 0x20`). -/
def NOVID2 : Nat := 0x20

/-- Novation vendor id byte 3 (`#define NOVID3 0x29`). -/
def NOVID3 : Nat := 0x29

/-- Device type (`#define DEVTYP 0x01`). -/
def DEVTYP : Nat := 0x01

/-- A-Station id, the source device constant (`#define ASTNID 0x40`). -/
def ASTNID : Nat := 0x40

/-- K/V-Station id, the target device constant (`#define KSTNID 0x41`). -/
def KSTNID : Nat := 0x41

/-- Message type: current sound dump (`#define MSGTYP_CUR 0x00`). -/
def MSGTYP_CUR : Nat := 0x00

/-- Message type: program dump (`#define MSGTYP_PRG 0x01`). -/
def MSGTYP_PRG : Nat := 0x01

/-- Message type: program pair dump (`#define MSGTYP_PAI 0x02`). -/
def MSGTYP_PAI : Nat := 0x02

/-- Error outcomes, one per `return EXIT_FAILURE` site of the main loop,
named after the spec's error taxonomy.  `UnknownVendorId` carries the
buffer offset checked (1, 2 or 3) and the offending byte; the device-type
and device-id errors carry the offending byte. -/
inductive TranscodeError where
  | NotASysexFile : TranscodeError
  | UnknownVendorId : Nat → Nat → TranscodeError
  | UnknownDeviceType : Nat → TranscodeError
  | AlreadyTargetFormat : TranscodeError
  | UnknownDeviceId : Nat → TranscodeError
deriving DecidableEq

/-- Loop state of `main`: the buffer contents, the write position
(`bufAddr - sysExclMsg`), the `counter` variable (an `int`, starts at `-1`),
the bytes written to the output file so far, and the info lines printed. -/
@[ext]
structure St where
  buf : Nat → Nat
  pos : Nat
  counter : Int
  out : List Nat
  info : List String

/-- Store one byte at one buffer position (`*bufAddr = byte`). -/
def writeBuf (buf : Nat → Nat) (p b : Nat) : Nat → Nat :=
  fun i => if i = p then b else buf i

/-- The diagnostic printed by the `switch(*(sysExclMsg+7))` block, as a
function of the buffer at end-of-frame.  `none` when the switch prints
nothing (unrecognized message type, or an unexpected bank-select byte). -/
def diagLine (buf : Nat → Nat) : Option String :=
  if buf 7 = MSGTYP_CUR then
    some "Current sound (edit buffer) dump"
  else if buf 7 = MSGTYP_PRG then
    if buf 8 = 0 then
      some ("Current selected bank, PROGRAM NUMBER=" ++ toString (buf 12))
    else if buf 8 = 1 then
      some ("PROGRAM BANK=" ++ toString (buf 11) ++ ", PROGRAM NUMBER=" ++
        toString (buf 12))
    else none
  else if buf 7 = MSGTYP_PAI then
    if buf 8 = 0 then
      some ("PROGRAM BANK=" ++ toString (buf 11) ++ ", PROGRAM NUMBER=" ++
        toString (buf 12) ++ " and " ++ toString (buf 12 + 1))
    else if buf 8 = 1 then
      some ("PROGRAM BANK=" ++ toString (buf 11) ++ ", PROGRAM NUMBER=" ++
        toString (buf 12) ++ " and " ++ toString (buf 12 + 1))
    else none
  else none

/-- One iteration of the `while(fread(...))` loop body on input byte `b`:
store the byte, run the first-byte check, update `counter`, and on an
end-of-exclusive byte validate the header, patch offset 5, emit buffer
bytes `0..counter` and reset the buffer position. -/
def step (s : St) (b : Nat) : Except TranscodeError St :=
  if s.counter = -1 ∧ b ≠ SOX then
    .error .NotASysexFile
  else
    let buf := writeBuf s.buf s.pos b
    let counter : Int := if b = SOX then 0 else s.counter + 1
    if b = EOX then
      if buf 1 ≠ NOVID1 then .error (.UnknownVendorId 1 (buf 1))
      else if buf 2 ≠ NOVID2 then .error (.UnknownVendorId 2 (buf 2))
      else if buf 3 ≠ NOVID3 then .error (.UnknownVendorId 3 (buf 3))
      else if buf 4 ≠ DEVTYP then .error (.UnknownDeviceType (buf 4))
      else if buf 5 = KSTNID then .error .AlreadyTargetFormat
      else if buf 5 ≠ ASTNID then .error (.UnknownDeviceId (buf 5))
      else
        let buf2 := writeBuf buf 5 KSTNID
        .ok { buf := buf2, pos := 0, counter := counter,
              out := s.out ++ (List.range (counter.toNat + 1)).map buf2,
              info := s.info ++ (diagLine buf2).toList }
    else
      .ok { buf := buf, pos := s.pos + 1, counter := counter,
            out := s.out, info := s.info }

/-- Run the loop over a list of input bytes.  On an error the loop state at
the point of failure is returned together with the error, so `(·.1.out)` is
the content of the output file when the process exits. -/
def run : St → List Nat → St × Option TranscodeError
  | s, [] => (s, none)
  | s, b :: l =>
    match step s b with
    | .error e => (s, some e)
    | .ok s' => run s' l

/-- Initial loop state: zeroed buffer, `bufAddr = sysExclMsg`,
`counter = -1`, empty output file, no info lines. -/
def initSt : St :=
  { buf := fun _ => 0, pos := 0, counter := -1, out := [], info := [] }

/-- The whole program on an input byte stream. -/
def transcode (input : List Nat) : St × Option TranscodeError :=
  run initSt input

/-- The patch applied to an emitted frame: byte offset 5 (the device id)
becomes the target constant. -/
def patchFrame (F : List Nat) : List Nat := F.set 5 KSTNID

/-- A well-formed source-format frame: a start marker, at least five
interior bytes none of which is a marker, a valid Novation header
(vendor triple, device type, A-Station device id), and an end marker. -/
def WFSrcFrame (F : List Nat) : Prop :=
  ∃ mid : List Nat,
    F = SOX :: mid ++ [EOX] ∧
    5 ≤ mid.length ∧
    (∀ b ∈ mid, b ≠ SOX ∧ b ≠ EOX) ∧
    mid.getD 0 0 = NOVID1 ∧ mid.getD 1 0 = NOVID2 ∧ mid.getD 2 0 = NOVID3 ∧
    mid.getD 3 0 = DEVTYP ∧ mid.getD 4 0 = ASTNID

/-- `true` exactly on the vendor-id failure, used to state that an abort
was not a vendor-id abort. -/
def isUnknownVendorId : TranscodeError → Bool
  | .UnknownVendorId _ _ => true
  | _ => false

/-- Store a list of bytes at consecutive buffer positions starting at `p`
(the effect of buffering several bytes in a row). -/
def writeList : (Nat → Nat) → Nat → List Nat → Nat → Nat
  | buf, _, [] => buf
  | buf, p, b :: l => writeList (writeBuf buf p b) (p + 1) l

/-- The buffer contents right after a whole frame `SOX :: mid ++ [EOX]` has
been buffered from position 0 and patched at offset 5. -/
def frameBuf (buf : Nat → Nat) (mid : List Nat) : Nat → Nat :=
  writeBuf (writeBuf (writeList buf 0 (SOX :: mid)) (mid.length + 1) EOX) 5 KSTNID

/-! ## Basic lemmas about the buffer model -/

theorem writeBuf_at (buf : Nat → Nat) (p b i : Nat) :
    writeBuf buf p b i = if i = p then b else buf i := rfl

theorem writeList_at (l : List Nat) (buf : Nat → Nat) (p i : Nat) :
    writeList buf p l i =
      if p ≤ i ∧ i < p + l.length then l.getD (i - p) 0 else buf i := by
  induction l generalizing buf p with
  | nil =>
    rw [writeList, List.length_nil, if_neg (by omega)]
  | cons b l ih =>
    rw [writeList, ih, List.length_cons]
    by_cases h1 : p + 1 ≤ i ∧ i < p + 1 + l.length
    · rw [if_pos h1, if_pos (by omega : p ≤ i ∧ i < p + (l.length + 1))]
      have hi : i - p = (i - (p + 1)) + 1 := by omega
      rw [hi, List.getD_cons_succ]
    · rw [if_neg h1, writeBuf_at]
      by_cases h2 : i = p
      · subst h2
        rw [if_pos rfl, if_pos (by omega : i ≤ i ∧ i < i + (l.length + 1)),
          Nat.sub_self, List.getD_cons_zero]
      · rw [if_neg h2, if_neg (by omega)]

theorem getD_eq_get (l : List Nat) (i : Nat) (h : i < l.length) :
    l.getD i 0 = l.get ⟨i, h⟩ := by
  rw [List.getD_eq_getElem?_getD, List.getElem?_eq_getElem h]
  rfl

theorem getD_set_ne (l : List Nat) (j i v d : Nat) (h : j ≠ i) :
    (l.set j v).getD i d = l.getD i d := by
  rw [List.getD_eq_getElem?_getD, List.getD_eq_getElem?_getD,
    List.getElem?_set_ne h]

theorem getD_set_self (l : List Nat) (j v : Nat) (h : j < l.length) :
    (l.set j v).getD j 0 = v := by
  rw [List.getD_eq_getElem?_getD, List.getElem?_set_self h]
  rfl

theorem range_map_getD (L : List Nat) (buf : Nat → Nat)
    (h : ∀ i, i < L.length → buf i = L.getD i 0) :
    (List.range L.length).map buf = L := by
  apply List.ext_getElem
  · simp
  · intro i h1 h2
    simp only [List.getElem_map, List.getElem_range]
    rw [h i h2, getD_eq_get L i h2]
    rfl

/-! ## Lemmas about single loop iterations -/

theorem eox_ne_sox : EOX ≠ SOX := by decide

theorem step_sox (s : St) :
    step s SOX = .ok { buf := writeBuf s.buf s.pos SOX, pos := s.pos + 1,
                       counter := 0, out := s.out, info := s.info } := by
  have h : ¬(SOX = EOX) := by decide
  simp [step, h]

theorem step_data (s : St) (b : Nat) (hc : s.counter ≠ -1)
    (h1 : b ≠ SOX) (h2 : b ≠ EOX) :
    step s b = .ok { buf := writeBuf s.buf s.pos b, pos := s.pos + 1,
                     counter := s.counter + 1, out := s.out, info := s.info } := by
  simp [step, hc, h1, h2]

theorem step_eox_reads (s : St) (hc : s.counter ≠ -1) (v1 v2 v3 v4 v5 : Nat)
    (r1 : writeBuf s.buf s.pos EOX 1 = v1)
    (r2 : writeBuf s.buf s.pos EOX 2 = v2)
    (r3 : writeBuf s.buf s.pos EOX 3 = v3)
    (r4 : writeBuf s.buf s.pos EOX 4 = v4)
    (r5 : writeBuf s.buf s.pos EOX 5 = v5) :
    step s EOX =
      if v1 ≠ NOVID1 then .error (.UnknownVendorId 1 v1)
      else if v2 ≠ NOVID2 then .error (.UnknownVendorId 2 v2)
      else if v3 ≠ NOVID3 then .error (.UnknownVendorId 3 v3)
      else if v4 ≠ DEVTYP then .error (.UnknownDeviceType v4)
      else if v5 = KSTNID then .error .AlreadyTargetFormat
      else if v5 ≠ ASTNID then .error (.UnknownDeviceId v5)
      else
        .ok { buf := writeBuf (writeBuf s.buf s.pos EOX) 5 KSTNID, pos := 0,
              counter := s.counter + 1,
              out := s.out ++ (List.range ((s.counter + 1).toNat + 1)).map
                (writeBuf (writeBuf s.buf s.pos EOX) 5 KSTNID),
              info := s.info ++
                (diagLine (writeBuf (writeBuf s.buf s.pos EOX) 5 KSTNID)).toList } := by
  have hcc : ¬(s.counter = -1 ∧ EOX ≠ SOX) := fun h => hc h.1
  unfold step
  rw [if_neg hcc]
  simp only [eox_ne_sox, ite_false, ite_true, if_false, if_true,
    eq_self_iff_true, r1, r2, r3, r4, r5]

/-! ## Lemmas about running byte sequences -/

theorem run_append_ok (s s1 : St) (l1 l2 : List Nat)
    (h : run s l1 = (s1, none)) :
    run s (l1 ++ l2) = run s1 l2 := by
  induction l1 generalizing s with
  | nil =>
    simp only [run] at h
    cases h
    rfl
  | cons b l ih =>
    rw [run] at h
    rw [List.cons_append, run]
    cases hs : step s b with
    | error e => rw [hs] at h; simp at h
    | ok s' => rw [hs] at h; exact ih s' h

theorem run_append_err (s s1 : St) (l1 l2 : List Nat) (e : TranscodeError)
    (h : run s l1 = (s1, some e)) :
    run s (l1 ++ l2) = (s1, some e) := by
  induction l1 generalizing s with
  | nil => simp only [run] at h; cases h
  | cons b l ih =>
    rw [run] at h
    rw [List.cons_append, run]
    cases hs : step s b with
    | error e' => rw [hs] at h; exact h
    | ok s' => rw [hs] at h; exact ih s' h

theorem run_eox_err (s : St) (l : List Nat) (e : TranscodeError)
    (h : step s EOX = .error e) :
    run s (EOX :: l) = (s, some e) := by
  rw [run, h]

theorem run_data (l : List Nat) (s : St) (hc : 0 ≤ s.counter)
    (hm : ∀ b ∈ l, b ≠ SOX ∧ b ≠ EOX) :
    run s l = ({ buf := writeList s.buf s.pos l, pos := s.pos + l.length,
                 counter := s.counter + l.length, out := s.out,
                 info := s.info }, none) := by
  induction l generalizing s with
  | nil =>
    simp [run, writeList]
  | cons b l ih =>
    have hb := hm b (List.mem_cons_self b l)
    have hps : s.pos + (b :: l).length = (s.pos + 1) + l.length := by
      rw [List.length_cons]; omega
    have hcs : s.counter + ((b :: l).length : Int) =
        (s.counter + 1) + l.length := by
      rw [List.length_cons]; push_cast; ring
    rw [hps, hcs, run, step_data s b (show s.counter ≠ -1 by omega) hb.1 hb.2]
    exact ih _ (show (0 : Int) ≤ s.counter + 1 by omega)
      (fun x hx => hm x (List.mem_cons_of_mem b hx))

theorem run_sox_mid (s : St) (mid : List Nat)
    (hm : ∀ b ∈ mid, b ≠ SOX ∧ b ≠ EOX) :
    run s (SOX :: mid) =
      ({ buf := writeList s.buf s.pos (SOX :: mid),
         pos := s.pos + (mid.length + 1),
         counter := (mid.length : Int), out := s.out, info := s.info },
       none) := by
  have hps : s.pos + (mid.length + 1) = (s.pos + 1) + mid.length := by omega
  have hcs : (mid.length : Int) = 0 + mid.length := by ring
  rw [hps, hcs, run, step_sox]
  exact run_data mid _ (show (0 : Int) ≤ 0 from le_refl 0) hm

/-! ## Processing one complete frame -/

theorem read_frame (buf : Nat → Nat) (p : Nat) (mid : List Nat) (k : Nat)
    (hk1 : 1 ≤ k) (hk2 : k ≤ mid.length) :
    writeBuf (writeList buf p (SOX :: mid)) (p + (mid.length + 1)) EOX (p + k)
      = mid.getD (k - 1) 0 := by
  rw [writeBuf_at, if_neg (by omega), writeList_at,
    if_pos (by rw [List.length_cons]; omega)]
  have hk : p + k - p = (k - 1) + 1 := by omega
  rw [hk, List.getD_cons_succ]

theorem read_frame_sox (buf : Nat → Nat) (p : Nat) (mid : List Nat) :
    writeBuf (writeList buf p (SOX :: mid)) (p + (mid.length + 1)) EOX p
      = SOX := by
  rw [writeBuf_at, if_neg (by omega), writeList_at,
    if_pos (by rw [List.length_cons]; omega)]
  rw [Nat.sub_self, List.getD_cons_zero]

theorem frameBuf_at (buf : Nat → Nat) (mid : List Nat) (i : Nat)
    (hi1 : 1 ≤ i) (hi2 : i ≤ mid.length) (hi5 : i ≠ 5) :
    frameBuf buf mid i = mid.getD (i - 1) 0 := by
  show writeBuf (writeBuf (writeList buf 0 (SOX :: mid)) (mid.length + 1) EOX)
    5 KSTNID i = _
  rw [writeBuf_at, if_neg hi5, writeBuf_at, if_neg (by omega), writeList_at,
    if_pos (by rw [List.length_cons]; omega)]
  have h0 : i - 0 = (i - 1) + 1 := by omega
  rw [h0, List.getD_cons_succ]

theorem patched_getD (mid : List Nat) (hlen : 5 ≤ mid.length) (i : Nat)
    (hi : i < mid.length + 2) :
    (SOX :: mid.set 4 KSTNID ++ [EOX]).getD i 0 =
      if i = 0 then SOX
      else if i = 5 then KSTNID
      else if i ≤ mid.length then mid.getD (i - 1) 0
      else EOX := by
  by_cases hle : i ≤ mid.length
  · rw [List.getD_append _ _ _ _
      (by simp only [List.length_cons, List.length_set]; omega)]
    cases i with
    | zero => rw [List.getD_cons_zero, if_pos rfl]
    | succ j =>
      rw [List.getD_cons_succ, if_neg (Nat.succ_ne_zero j)]
      by_cases hj4 : j = 4
      · subst hj4
        rw [if_pos (by norm_num), getD_set_self mid 4 KSTNID (by omega)]
      · rw [if_neg (by omega), if_pos hle, getD_set_ne mid 4 _ _ _ (Ne.symm hj4)]
        simp only [Nat.add_sub_cancel]
  · rw [List.getD_append_right _ _ _ _
      (by simp only [List.length_cons, List.length_set]; omega)]
    rw [if_neg (by omega), if_neg (by omega), if_neg hle]
    have h0 : i - (SOX :: mid.set 4 KSTNID).length = 0 := by
      simp only [List.length_cons, List.length_set]
      omega
    rw [h0, List.getD_cons_zero]

theorem run_frame (s : St) (mid : List Nat) (hpos : s.pos = 0)
    (hlen : 5 ≤ mid.length) (hm : ∀ b ∈ mid, b ≠ SOX ∧ b ≠ EOX)
    (h1 : mid.getD 0 0 = NOVID1) (h2 : mid.getD 1 0 = NOVID2)
    (h3 : mid.getD 2 0 = NOVID3) (h4 : mid.getD 3 0 = DEVTYP)
    (h5 : mid.getD 4 0 = ASTNID) :
    run s (SOX :: mid ++ [EOX]) =
      ({ buf := frameBuf s.buf mid, pos := 0,
         counter := (mid.length : Int) + 1,
         out := s.out ++ (SOX :: mid.set 4 KSTNID ++ [EOX]),
         info := s.info ++ (diagLine (frameBuf s.buf mid)).toList }, none) := by
  have hsm := run_sox_mid s mid hm
  rw [hpos] at hsm
  simp only [Nat.zero_add] at hsm
  have rk : ∀ k, 1 ≤ k → k ≤ mid.length →
      writeBuf (writeList s.buf 0 (SOX :: mid)) (mid.length + 1) EOX k =
        mid.getD (k - 1) 0 := by
    intro k hka hkb
    have h := read_frame s.buf 0 mid k hka hkb
    rwa [Nat.zero_add, Nat.zero_add] at h
  have r1 : writeBuf (writeList s.buf 0 (SOX :: mid)) (mid.length + 1) EOX 1
      = NOVID1 := by rw [rk 1 (by omega) (by omega)]; exact h1
  have r2 : writeBuf (writeList s.buf 0 (SOX :: mid)) (mid.length + 1) EOX 2
      = NOVID2 := by rw [rk 2 (by omega) (by omega)]; exact h2
  have r3 : writeBuf (writeList s.buf 0 (SOX :: mid)) (mid.length + 1) EOX 3
      = NOVID3 := by rw [rk 3 (by omega) (by omega)]; exact h3
  have r4 : writeBuf (writeList s.buf 0 (SOX :: mid)) (mid.length + 1) EOX 4
      = DEVTYP := by rw [rk 4 (by omega) (by omega)]; exact h4
  have r5 : writeBuf (writeList s.buf 0 (SOX :: mid)) (mid.length + 1) EOX 5
      = ASTNID := by rw [rk 5 (by omega) (by omega)]; exact h5
  have hstep := step_eox_reads
    { buf := writeList s.buf 0 (SOX :: mid), pos := mid.length + 1,
      counter := (mid.length : Int), out := s.out, info := s.info }
    (show (mid.length : Int) ≠ -1 by omega)
    NOVID1 NOVID2 NOVID3 DEVTYP ASTNID r1 r2 r3 r4 r5
  rw [if_neg (by simp), if_neg (by simp), if_neg (by simp), if_neg (by simp),
    if_neg (by decide), if_neg (by simp)] at hstep
  have hout : (List.range (((mid.length : Int) + 1).toNat + 1)).map
      (frameBuf s.buf mid) = SOX :: mid.set 4 KSTNID ++ [EOX] := by
    have hlen2 : ((mid.length : Int) + 1).toNat + 1 =
        (SOX :: mid.set 4 KSTNID ++ [EOX]).length := by
      simp only [List.length_cons, List.length_append, List.length_set,
        List.length_nil]
      omega
    rw [hlen2]
    apply range_map_getD
    intro i hi
    simp only [List.length_cons, List.length_append, List.length_set,
      List.length_nil] at hi
    rw [patched_getD mid hlen i (by omega)]
    show writeBuf (writeBuf (writeList s.buf 0 (SOX :: mid))
      (mid.length + 1) EOX) 5 KSTNID i = _
    by_cases hi5 : i = 5
    · subst hi5
      rw [writeBuf_at, if_pos rfl, if_neg (by omega), if_pos (by omega)]
    · rw [writeBuf_at, if_neg hi5, writeBuf_at]
      by_cases hie : i = mid.length + 1
      · rw [if_pos hie, if_neg (by omega), if_neg hi5, if_neg (by omega)]
      · rw [if_neg hie, writeList_at,
          if_pos (by rw [List.length_cons]; omega)]
        by_cases hi0 : i = 0
        · subst hi0
          rw [if_pos rfl, Nat.sub_zero, List.getD_cons_zero]
        · rw [if_neg hi0, if_neg hi5, if_pos (by omega)]
          have h0 : i - 0 = (i - 1) + 1 := by omega
          rw [h0, List.getD_cons_succ]
  rw [run_append_ok _ _ _ _ hsm, run, hstep]
  refine Prod.ext (St.ext ?_ rfl rfl ?_ rfl) rfl
  · rfl
  · exact congrArg (s.out ++ ·) hout

theorem read_frame0 (buf : Nat → Nat) (mid : List Nat) (k : Nat)
    (hka : 1 ≤ k) (hkb : k ≤ mid.length) :
    writeBuf (writeList buf 0 (SOX :: mid)) (mid.length + 1) EOX k =
      mid.getD (k - 1) 0 := by
  have h := read_frame buf 0 mid k hka hkb
  rwa [Nat.zero_add, Nat.zero_add] at h

theorem step_frame (s : St) (mid : List Nat) (hlen : 5 ≤ mid.length) :
    step { buf := writeList s.buf 0 (SOX :: mid), pos := mid.length + 1,
           counter := (mid.length : Int), out := s.out, info := s.info } EOX =
      if mid.getD 0 0 ≠ NOVID1 then
        .error (.UnknownVendorId 1 (mid.getD 0 0))
      else if mid.getD 1 0 ≠ NOVID2 then
        .error (.UnknownVendorId 2 (mid.getD 1 0))
      else if mid.getD 2 0 ≠ NOVID3 then
        .error (.UnknownVendorId 3 (mid.getD 2 0))
      else if mid.getD 3 0 ≠ DEVTYP then
        .error (.UnknownDeviceType (mid.getD 3 0))
      else if mid.getD 4 0 = KSTNID then
        .error .AlreadyTargetFormat
      else if mid.getD 4 0 ≠ ASTNID then
        .error (.UnknownDeviceId (mid.getD 4 0))
      else
        .ok { buf := frameBuf s.buf mid, pos := 0,
              counter := (mid.length : Int) + 1,
              out := s.out ++ (List.range (((mid.length : Int) + 1).toNat + 1)).map
                (frameBuf s.buf mid),
              info := s.info ++ (diagLine (frameBuf s.buf mid)).toList } := by
  have r1 := read_frame0 s.buf mid 1 (by omega) (by omega)
  have r2 := read_frame0 s.buf mid 2 (by omega) (by omega)
  have r3 := read_frame0 s.buf mid 3 (by omega) (by omega)
  have r4 := read_frame0 s.buf mid 4 (by omega) (by omega)
  have r5 := read_frame0 s.buf mid 5 (by omega) (by omega)
  exact step_eox_reads _ (show (mid.length : Int) ≠ -1 by omega)
    _ _ _ _ _ r1 r2 r3 r4 r5

theorem frame_set5 (mid : List Nat) (h : 5 ≤ mid.length) :
    patchFrame (SOX :: mid ++ [EOX]) = SOX :: mid.set 4 KSTNID ++ [EOX] := by
  show (SOX :: mid ++ [EOX]).set 5 KSTNID = SOX :: mid.set 4 KSTNID ++ [EOX]
  rw [List.set_append, if_pos (by simp only [List.length_cons]; omega)]
  show (SOX :: mid).set (4 + 1) KSTNID ++ [EOX] = _
  rw [List.set_cons_succ]

theorem run_no_eox (l : List Nat) (s : St) (hc : 0 ≤ s.counter)
    (hl : ∀ b ∈ l, b ≠ EOX) :
    (run s l).2 = none ∧ (run s l).1.out = s.out ∧
    (run s l).1.info = s.info := by
  induction l generalizing s with
  | nil => exact ⟨rfl, rfl, rfl⟩
  | cons b l ih =>
    have hb := hl b (List.mem_cons_self b l)
    by_cases hsox : b = SOX
    · subst hsox
      rw [run, step_sox]
      exact ih _ (show (0 : Int) ≤ 0 from le_refl 0)
        (fun x hx => hl x (List.mem_cons_of_mem _ hx))
    · rw [run, step_data s b (by omega) hsox hb]
      exact ih _ (show (0 : Int) ≤ s.counter + 1 by omega)
        (fun x hx => hl x (List.mem_cons_of_mem _ hx))

theorem run_stream (frames : List (List Nat)) (s : St) (hpos : s.pos = 0)
    (hw : ∀ F ∈ frames, WFSrcFrame F) :
    ∃ s1, run s frames.flatten = (s1, none) ∧
      s1.out = s.out ++ (frames.map patchFrame).flatten ∧ s1.pos = 0 := by
  induction frames generalizing s with
  | nil => exact ⟨s, rfl, by simp, hpos⟩
  | cons F fs ih =>
    obtain ⟨mid, hF, hlen, hm, h1, h2, h3, h4, h5⟩ :=
      hw F (List.mem_cons_self F fs)
    subst hF
    rw [List.flatten_cons]
    have hrf := run_frame s mid hpos hlen hm h1 h2 h3 h4 h5
    rw [run_append_ok _ _ _ _ hrf]
    obtain ⟨s1, hrun, hout, hp⟩ :=
      ih { buf := frameBuf s.buf mid, pos := 0,
           counter := (mid.length : Int) + 1,
           out := s.out ++ (SOX :: mid.set 4 KSTNID ++ [EOX]),
           info := s.info ++ (diagLine (frameBuf s.buf mid)).toList }
        rfl (fun G hG => hw G (List.mem_cons_of_mem _ hG))
    refine ⟨s1, hrun, ?_, hp⟩
    rw [hout]
    simp only [List.map_cons, List.flatten_cons]
    rw [frame_set5 mid hlen]
    simp only [List.append_assoc]

theorem run_already (s : St) (mid rest : List Nat) (hpos : s.pos = 0)
    (hlen : 5 ≤ mid.length) (hm : ∀ b ∈ mid, b ≠ SOX ∧ b ≠ EOX)
    (h1 : mid.getD 0 0 = NOVID1) (h2 : mid.getD 1 0 = NOVID2)
    (h3 : mid.getD 2 0 = NOVID3) (h4 : mid.getD 3 0 = DEVTYP)
    (h5 : mid.getD 4 0 = KSTNID) :
    (run s ((SOX :: mid) ++ (EOX :: rest))).2 = some .AlreadyTargetFormat ∧
    (run s ((SOX :: mid) ++ (EOX :: rest))).1.out = s.out := by
  have hsm := run_sox_mid s mid hm
  rw [hpos] at hsm
  simp only [Nat.zero_add] at hsm
  have hstep := step_frame s mid hlen
  rw [if_neg (not_not_intro h1), if_neg (not_not_intro h2),
    if_neg (not_not_intro h3), if_neg (not_not_intro h4), if_pos h5] at hstep
  rw [run_append_ok _ _ _ _ hsm, run_eox_err _ rest _ hstep]
  exact ⟨rfl, rfl⟩

theorem run_vendor_err (s : St) (mid rest : List Nat) (hpos : s.pos = 0)
    (hlen : 5 ≤ mid.length) (hm : ∀ b ∈ mid, b ≠ SOX ∧ b ≠ EOX)
    (hbad : mid.getD 0 0 ≠ NOVID1 ∨ mid.getD 1 0 ≠ NOVID2 ∨
      mid.getD 2 0 ≠ NOVID3) :
    (∃ k v, (run s ((SOX :: mid) ++ (EOX :: rest))).2 =
      some (.UnknownVendorId k v)) ∧
    (run s ((SOX :: mid) ++ (EOX :: rest))).1.out = s.out := by
  have hsm := run_sox_mid s mid hm
  rw [hpos] at hsm
  simp only [Nat.zero_add] at hsm
  have hstep := step_frame s mid hlen
  by_cases c1 : mid.getD 0 0 = NOVID1
  · by_cases c2 : mid.getD 1 0 = NOVID2
    · have c3 : mid.getD 2 0 ≠ NOVID3 := by tauto
      rw [if_neg (not_not_intro c1), if_neg (not_not_intro c2),
        if_pos c3] at hstep
      rw [run_append_ok _ _ _ _ hsm, run_eox_err _ rest _ hstep]
      exact ⟨⟨3, _, rfl⟩, rfl⟩
    · rw [if_neg (not_not_intro c1), if_pos c2] at hstep
      rw [run_append_ok _ _ _ _ hsm, run_eox_err _ rest _ hstep]
      exact ⟨⟨2, _, rfl⟩, rfl⟩
  · rw [if_pos c1] at hstep
    rw [run_append_ok _ _ _ _ hsm, run_eox_err _ rest _ hstep]
    exact ⟨⟨1, _, rfl⟩, rfl⟩

theorem run_devtype_err (s : St) (mid rest : List Nat) (hpos : s.pos = 0)
    (hlen : 5 ≤ mid.length) (hm : ∀ b ∈ mid, b ≠ SOX ∧ b ≠ EOX)
    (h1 : mid.getD 0 0 = NOVID1) (h2 : mid.getD 1 0 = NOVID2)
    (h3 : mid.getD 2 0 = NOVID3) (h4 : mid.getD 3 0 ≠ DEVTYP) :
    (run s ((SOX :: mid) ++ (EOX :: rest))).2 =
      some (.UnknownDeviceType (mid.getD 3 0)) ∧
    (run s ((SOX :: mid) ++ (EOX :: rest))).1.out = s.out := by
  have hsm := run_sox_mid s mid hm
  rw [hpos] at hsm
  simp only [Nat.zero_add] at hsm
  have hstep := step_frame s mid hlen
  rw [if_neg (not_not_intro h1), if_neg (not_not_intro h2),
    if_neg (not_not_intro h3), if_pos h4] at hstep
  rw [run_append_ok _ _ _ _ hsm, run_eox_err _ rest _ hstep]
  exact ⟨rfl, rfl⟩

theorem run_devid_err (s : St) (mid rest : List Nat) (hpos : s.pos = 0)
    (hlen : 5 ≤ mid.length) (hm : ∀ b ∈ mid, b ≠ SOX ∧ b ≠ EOX)
    (h1 : mid.getD 0 0 = NOVID1) (h2 : mid.getD 1 0 = NOVID2)
    (h3 : mid.getD 2 0 = NOVID3) (h4 : mid.getD 3 0 = DEVTYP)
    (h5a : mid.getD 4 0 ≠ KSTNID) (h5b : mid.getD 4 0 ≠ ASTNID) :
    (run s ((SOX :: mid) ++ (EOX :: rest))).2 =
      some (.UnknownDeviceId (mid.getD 4 0)) ∧
    (run s ((SOX :: mid) ++ (EOX :: rest))).1.out = s.out := by
  have hsm := run_sox_mid s mid hm
  rw [hpos] at hsm
  simp only [Nat.zero_add] at hsm
  have hstep := step_frame s mid hlen
  rw [if_neg (not_not_intro h1), if_neg (not_not_intro h2),
    if_neg (not_not_intro h3), if_neg (not_not_intro h4), if_neg h5a,
    if_pos h5b] at hstep
  rw [run_append_ok _ _ _ _ hsm, run_eox_err _ rest _ hstep]
  exact ⟨rfl, rfl⟩

theorem run_stray_frame (s : St) (x : Nat) (mid2 rest : List Nat)
    (hpos : s.pos = 0) (hc : s.counter ≠ -1) (hx1 : x ≠ SOX) (hx2 : x ≠ EOX)
    (hm2 : ∀ b ∈ mid2, b ≠ SOX ∧ b ≠ EOX) :
    (run s ([x] ++ ((SOX :: mid2) ++ (EOX :: rest)))).2 =
      some (.UnknownVendorId 1 SOX) ∧
    (run s ([x] ++ ((SOX :: mid2) ++ (EOX :: rest)))).1.out = s.out := by
  have hx : run s [x] =
      ({ buf := writeBuf s.buf 0 x, pos := 1, counter := s.counter + 1,
         out := s.out, info := s.info }, none) := by
    rw [run, step_data s x hc hx1 hx2, hpos]
    rfl
  have hsm2 : run
      { buf := writeBuf s.buf 0 x, pos := 1, counter := s.counter + 1,
        out := s.out, info := s.info }
      (SOX :: mid2) =
    ({ buf := writeList (writeBuf s.buf 0 x) 1 (SOX :: mid2),
       pos := 1 + (mid2.length + 1), counter := (mid2.length : Int),
       out := s.out, info := s.info }, none) := run_sox_mid _ mid2 hm2
  have hr1 : writeBuf (writeList (writeBuf s.buf 0 x) 1 (SOX :: mid2))
      (1 + (mid2.length + 1)) EOX 1 = SOX := read_frame_sox _ 1 mid2
  have hstep := step_eox_reads
    { buf := writeList (writeBuf s.buf 0 x) 1 (SOX :: mid2),
      pos := 1 + (mid2.length + 1), counter := (mid2.length : Int),
      out := s.out, info := s.info }
    (show (mid2.length : Int) ≠ -1 by omega)
    SOX _ _ _ _ hr1 rfl rfl rfl rfl
  rw [if_pos (by decide)] at hstep
  rw [run_append_ok _ _ _ _ hx, run_append_ok _ _ _ _ hsm2,
    run_eox_err _ rest _ hstep]
  exact ⟨rfl, rfl⟩

/-! ## Claims -/

/-- C1: for every frame whose device id at offset 5 is the source constant
0x40 and whose header passes validation, the emitted frame is the input
frame with offset 5 set to 0x41; the length is unchanged and every byte
other than offset 5 (in particular all program data from offset 13 on) is
unmodified. -/
theorem spec_c1 (mid : List Nat) (hlen : 5 ≤ mid.length)
    (hm : ∀ b ∈ mid, b ≠ SOX ∧ b ≠ EOX)
    (h1 : mid.getD 0 0 = NOVID1) (h2 : mid.getD 1 0 = NOVID2)
    (h3 : mid.getD 2 0 = NOVID3) (h4 : mid.getD 3 0 = DEVTYP)
    (h5 : mid.getD 4 0 = ASTNID) :
    (transcode (SOX :: mid ++ [EOX])).2 = none ∧
    (transcode (SOX :: mid ++ [EOX])).1.out =
      (SOX :: mid ++ [EOX]).set 5 KSTNID ∧
    (transcode (SOX :: mid ++ [EOX])).1.out.length =
      (SOX :: mid ++ [EOX]).length ∧
    ∀ i, i ≠ 5 →
      (transcode (SOX :: mid ++ [EOX])).1.out.getD i 0 =
        (SOX :: mid ++ [EOX]).getD i 0 := by
  have hrf := run_frame initSt mid rfl hlen hm h1 h2 h3 h4 h5
  have hout : (transcode (SOX :: mid ++ [EOX])).1.out =
      (SOX :: mid ++ [EOX]).set 5 KSTNID := by
    show (run initSt (SOX :: mid ++ [EOX])).1.out = _
    rw [hrf, ← frame_set5 mid hlen]
    simp [patchFrame, initSt]
  refine ⟨?_, hout, ?_, ?_⟩
  · show (run initSt (SOX :: mid ++ [EOX])).2 = none
    rw [hrf]
  · rw [hout, List.length_set]
  · intro i hi
    rw [hout, getD_set_ne _ 5 i _ _ (Ne.symm hi)]

/-- Witness for C1 on the minimal source-format frame. -/
theorem spec_c1_witness :
    (transcode (SOX :: [NOVID1, NOVID2, NOVID3, DEVTYP, ASTNID] ++ [EOX])).2
      = none ∧
    (transcode (SOX :: [NOVID1, NOVID2, NOVID3, DEVTYP, ASTNID] ++ [EOX])).1.out
      = (SOX :: [NOVID1, NOVID2, NOVID3, DEVTYP, ASTNID] ++ [EOX]).set 5 KSTNID ∧
    (transcode
        (SOX :: [NOVID1, NOVID2, NOVID3, DEVTYP, ASTNID] ++ [EOX])).1.out.length
      = (SOX :: [NOVID1, NOVID2, NOVID3, DEVTYP, ASTNID] ++ [EOX]).length ∧
    ∀ i, i ≠ 5 →
      (transcode
          (SOX :: [NOVID1, NOVID2, NOVID3, DEVTYP, ASTNID] ++ [EOX])).1.out.getD
          i 0
        = (SOX :: [NOVID1, NOVID2, NOVID3, DEVTYP, ASTNID] ++ [EOX]).getD i 0 :=
  spec_c1 [NOVID1, NOVID2, NOVID3, DEVTYP, ASTNID] (by decide) (by decide)
    rfl rfl rfl rfl rfl

/-- C4: for every frame whose vendor id triple (frame offsets 1-3) differs
from (0x00, 0x20, 0x29) at any position, the run fails with an
`UnknownVendorId` error and produces zero output bytes. -/
theorem spec_c4 (mid : List Nat) (hlen : 5 ≤ mid.length)
    (hm : ∀ b ∈ mid, b ≠ SOX ∧ b ≠ EOX)
    (hbad : mid.getD 0 0 ≠ NOVID1 ∨ mid.getD 1 0 ≠ NOVID2 ∨
      mid.getD 2 0 ≠ NOVID3) :
    (∃ k v, (transcode (SOX :: mid ++ [EOX])).2 =
      some (.UnknownVendorId k v)) ∧
    (transcode (SOX :: mid ++ [EOX])).1.out = [] :=
  run_vendor_err initSt mid [] rfl hlen hm hbad

/-- Witness for C4: a frame whose first vendor id byte is wrong. -/
theorem spec_c4_witness :
    (∃ k v, (transcode (SOX :: [0x09, NOVID2, NOVID3, DEVTYP, ASTNID] ++
      [EOX])).2 = some (.UnknownVendorId k v)) ∧
    (transcode (SOX :: [0x09, NOVID2, NOVID3, DEVTYP, ASTNID] ++
      [EOX])).1.out = [] :=
  spec_c4 [0x09, NOVID2, NOVID3, DEVTYP, ASTNID] (by decide) (by decide)
    (Or.inl (by decide))

/-- C5: an input that is the concatenation of N well-formed source-format
frames succeeds, and the output is exactly the N patched frames,
concatenated in the same order with no interleaving. -/
theorem spec_c5 (frames : List (List Nat))
    (hw : ∀ F ∈ frames, WFSrcFrame F) :
    (transcode frames.flatten).2 = none ∧
    (transcode frames.flatten).1.out = (frames.map patchFrame).flatten ∧
    (frames.map patchFrame).length = frames.length := by
  obtain ⟨s1, hrun, hout, -⟩ := run_stream frames initSt rfl hw
  refine ⟨?_, ?_, List.length_map _ _⟩
  · show (run initSt frames.flatten).2 = none
    rw [hrun]
  · show (run initSt frames.flatten).1.out = _
    rw [hrun]
    show s1.out = _
    rw [hout]
    simp [initSt]

/-- Witness for C5 on a two-frame stream. -/
theorem spec_c5_witness :
    (transcode [[SOX, NOVID1, NOVID2, NOVID3, DEVTYP, ASTNID, EOX],
      [SOX, NOVID1, NOVID2, NOVID3, DEVTYP, ASTNID, EOX]].flatten).2 = none ∧
    (transcode [[SOX, NOVID1, NOVID2, NOVID3, DEVTYP, ASTNID, EOX],
      [SOX, NOVID1, NOVID2, NOVID3, DEVTYP, ASTNID, EOX]].flatten).1.out =
      ([[SOX, NOVID1, NOVID2, NOVID3, DEVTYP, ASTNID, EOX],
        [SOX, NOVID1, NOVID2, NOVID3, DEVTYP, ASTNID, EOX]].map
        patchFrame).flatten ∧
    ([[SOX, NOVID1, NOVID2, NOVID3, DEVTYP, ASTNID, EOX],
      [SOX, NOVID1, NOVID2, NOVID3, DEVTYP, ASTNID, EOX]].map
      patchFrame).length =
      [[SOX, NOVID1, NOVID2, NOVID3, DEVTYP, ASTNID, EOX],
       [SOX, NOVID1, NOVID2, NOVID3, DEVTYP, ASTNID, EOX]].length :=
  spec_c5 [[SOX, NOVID1, NOVID2, NOVID3, DEVTYP, ASTNID, EOX],
    [SOX, NOVID1, NOVID2, NOVID3, DEVTYP, ASTNID, EOX]]
    (by
      intro F hF
      simp only [List.mem_cons, List.not_mem_nil, or_false, or_self] at hF
      subst hF
      exact ⟨[NOVID1, NOVID2, NOVID3, DEVTYP, ASTNID], rfl, by decide,
        by decide, rfl, rfl, rfl, rfl, rfl⟩)

/-- C7: any non-empty input whose first byte is not the start marker 0xF0
fails with `NotASysexFile` and produces zero output bytes. -/
theorem spec_c7 (b : Nat) (l : List Nat) (hb : b ≠ SOX) :
    (transcode (b :: l)).2 = some .NotASysexFile ∧
    (transcode (b :: l)).1.out = [] := by
  have hs : step initSt b = .error .NotASysexFile := by
    unfold step
    rw [if_pos ⟨rfl, hb⟩]
  constructor
  · show (run initSt (b :: l)).2 = _
    rw [run, hs]
  · show (run initSt (b :: l)).1.out = _
    rw [run, hs]
    rfl

/-- Witness for C7 with a zero first byte. -/
theorem spec_c7_witness :
    (transcode [0x00]).2 = some .NotASysexFile ∧
    (transcode [0x00]).1.out = [] :=
  spec_c7 0x00 [] (by decide)

/-- C9: the empty input yields success with zero output bytes: no frame is
emitted and no error is raised. -/
theorem spec_c9 : (transcode []).2 = none ∧ (transcode []).1.out = [] :=
  ⟨rfl, rfl⟩

/-- C2 fails as stated: this input succeeds, but its emitted output (a
stray-byte-shifted blob `[0xF0, 0x00]`) is transcoded again without any
error, in particular without `AlreadyTargetFormat`. -/
theorem spec_c2_counterexample :
    (transcode [0xF0, 0x00, 0x20, 0x29, 0x01, 0x40, 0x00, 0xF0, 0xF7]).2 =
      none ∧
    (transcode [0xF0, 0x00, 0x20, 0x29, 0x01, 0x40, 0x00, 0xF0, 0xF7]).1.out =
      [0xF0, 0x00] ∧
    (transcode [0xF0, 0x00]).2 = none ∧
    (transcode [0xF0, 0x00]).1.out = [] := by decide

/-- C2 amended: when the successful input is a non-empty concatenation of
well-formed source-format frames, re-running the transcoder on the produced
output fails with `AlreadyTargetFormat` before emitting any byte. -/
theorem spec_c2_amended (frames : List (List Nat)) (hne : frames ≠ [])
    (hw : ∀ F ∈ frames, WFSrcFrame F) :
    (transcode frames.flatten).2 = none ∧
    (transcode ((transcode frames.flatten).1.out)).2 =
      some .AlreadyTargetFormat ∧
    (transcode ((transcode frames.flatten).1.out)).1.out = [] := by
  obtain ⟨s1, hrun, hout, -⟩ := run_stream frames initSt rfl hw
  have hfst : (transcode frames.flatten).2 = none := by
    show (run initSt frames.flatten).2 = none
    rw [hrun]
  have houtx : (transcode frames.flatten).1.out =
      (frames.map patchFrame).flatten := by
    show (run initSt frames.flatten).1.out = _
    rw [hrun]
    show s1.out = _
    rw [hout]
    simp [initSt]
  obtain ⟨F, fs, rfl⟩ : ∃ F fs, frames = F :: fs := by
    cases frames with
    | nil => exact absurd rfl hne
    | cons F fs => exact ⟨F, fs, rfl⟩
  obtain ⟨mid, hF, hlen, hm, h1, h2, h3, h4, h5⟩ :=
    hw F (List.mem_cons_self F fs)
  subst hF
  have hm' : ∀ b ∈ mid.set 4 KSTNID, b ≠ SOX ∧ b ≠ EOX := by
    intro b hb
    rcases List.mem_or_eq_of_mem_set hb with h | h
    · exact hm b h
    · subst h
      exact ⟨by decide, by decide⟩
  have hshape : (((SOX :: mid ++ [EOX]) :: fs).map patchFrame).flatten =
      (SOX :: mid.set 4 KSTNID) ++ (EOX :: (fs.map patchFrame).flatten) := by
    rw [List.map_cons, List.flatten_cons, frame_set5 mid hlen,
      List.append_assoc, List.singleton_append]
  have hra := run_already initSt (mid.set 4 KSTNID)
    ((fs.map patchFrame).flatten) rfl (by rw [List.length_set]; omega) hm'
    (by rw [getD_set_ne _ 4 0 _ _ (by omega)]; exact h1)
    (by rw [getD_set_ne _ 4 1 _ _ (by omega)]; exact h2)
    (by rw [getD_set_ne _ 4 2 _ _ (by omega)]; exact h3)
    (by rw [getD_set_ne _ 4 3 _ _ (by omega)]; exact h4)
    (getD_set_self mid 4 KSTNID (by omega))
  refine ⟨hfst, ?_, ?_⟩
  · rw [houtx, hshape]
    exact hra.1
  · rw [houtx, hshape]
    exact hra.2

/-- Witness for the amended C2 on a one-frame stream. -/
theorem spec_c2_amended_witness :
    (transcode [[SOX, NOVID1, NOVID2, NOVID3, DEVTYP, ASTNID,
      EOX]].flatten).2 = none ∧
    (transcode ((transcode [[SOX, NOVID1, NOVID2, NOVID3, DEVTYP, ASTNID,
      EOX]].flatten).1.out)).2 = some .AlreadyTargetFormat ∧
    (transcode ((transcode [[SOX, NOVID1, NOVID2, NOVID3, DEVTYP, ASTNID,
      EOX]].flatten).1.out)).1.out = [] :=
  spec_c2_amended [[SOX, NOVID1, NOVID2, NOVID3, DEVTYP, ASTNID, EOX]]
    (by decide)
    (by
      intro F hF
      simp only [List.mem_cons, List.not_mem_nil, or_false] at hF
      subst hF
      exact ⟨[NOVID1, NOVID2, NOVID3, DEVTYP, ASTNID], rfl, by decide,
        by decide, rfl, rfl, rfl, rfl, rfl⟩)

/-- C3 fails as stated: a lone start marker is a truncated frame, yet the
run returns success (with no error) instead of failing. -/
theorem spec_c3_counterexample :
    (transcode [SOX]).2 = none ∧ (transcode [SOX]).1.out = [] := by decide

/-- C3 amended: a truncated final frame (a start marker never followed by
an end marker before the stream ends) is not emitted to the output, but the
run nevertheless returns success — the truncated frame is silently
dropped, no error is raised. -/
theorem spec_c3_amended (frames : List (List Nat)) (tail : List Nat)
    (hw : ∀ F ∈ frames, WFSrcFrame F) (ht : ∀ b ∈ tail, b ≠ EOX) :
    (transcode (frames.flatten ++ (SOX :: tail))).2 = none ∧
    (transcode (frames.flatten ++ (SOX :: tail))).1.out =
      (frames.map patchFrame).flatten := by
  obtain ⟨s1, hrun, hout, hp⟩ := run_stream frames initSt rfl hw
  have hso : s1.out = (frames.map patchFrame).flatten := by
    rw [hout]
    simp [initSt]
  have htail := run_no_eox tail
    { buf := writeBuf s1.buf s1.pos SOX, pos := s1.pos + 1, counter := 0,
      out := s1.out, info := s1.info } (le_refl 0) ht
  constructor
  · show (run initSt (frames.flatten ++ (SOX :: tail))).2 = none
    rw [run_append_ok _ _ _ _ hrun, run, step_sox]
    exact htail.1
  · show (run initSt (frames.flatten ++ (SOX :: tail))).1.out = _
    rw [run_append_ok _ _ _ _ hrun, run, step_sox]
    exact htail.2.1.trans hso

/-- Witness for the amended C3: one good frame, then a truncated frame. -/
theorem spec_c3_amended_witness :
    (transcode ([[SOX, NOVID1, NOVID2, NOVID3, DEVTYP, ASTNID, EOX]].flatten
      ++ (SOX :: [NOVID1, NOVID2]))).2 = none ∧
    (transcode ([[SOX, NOVID1, NOVID2, NOVID3, DEVTYP, ASTNID, EOX]].flatten
      ++ (SOX :: [NOVID1, NOVID2]))).1.out =
      ([[SOX, NOVID1, NOVID2, NOVID3, DEVTYP, ASTNID, EOX]].map
        patchFrame).flatten :=
  spec_c3_amended [[SOX, NOVID1, NOVID2, NOVID3, DEVTYP, ASTNID, EOX]]
    [NOVID1, NOVID2]
    (by
      intro F hF
      simp only [List.mem_cons, List.not_mem_nil, or_false] at hF
      subst hF
      exact ⟨[NOVID1, NOVID2, NOVID3, DEVTYP, ASTNID], rfl, by decide,
        by decide, rfl, rfl, rfl, rfl, rfl⟩)
    (by decide)

/-- C8: on a single frame the header checks run in the order vendor id
triple, device type, device id, each with its own failure mode, and no
byte reaches the output unless every check passed; when all checks pass
the patched frame is emitted. -/
theorem spec_c8 (mid : List Nat) (hlen : 5 ≤ mid.length)
    (hm : ∀ b ∈ mid, b ≠ SOX ∧ b ≠ EOX) :
    ((mid.getD 0 0 ≠ NOVID1 ∨ mid.getD 1 0 ≠ NOVID2 ∨
        mid.getD 2 0 ≠ NOVID3) →
      (∃ k v, (transcode (SOX :: mid ++ [EOX])).2 =
        some (.UnknownVendorId k v)) ∧
      (transcode (SOX :: mid ++ [EOX])).1.out = []) ∧
    (mid.getD 0 0 = NOVID1 → mid.getD 1 0 = NOVID2 → mid.getD 2 0 = NOVID3 →
      mid.getD 3 0 ≠ DEVTYP →
      (transcode (SOX :: mid ++ [EOX])).2 =
        some (.UnknownDeviceType (mid.getD 3 0)) ∧
      (transcode (SOX :: mid ++ [EOX])).1.out = []) ∧
    (mid.getD 0 0 = NOVID1 → mid.getD 1 0 = NOVID2 → mid.getD 2 0 = NOVID3 →
      mid.getD 3 0 = DEVTYP → mid.getD 4 0 = KSTNID →
      (transcode (SOX :: mid ++ [EOX])).2 = some .AlreadyTargetFormat ∧
      (transcode (SOX :: mid ++ [EOX])).1.out = []) ∧
    (mid.getD 0 0 = NOVID1 → mid.getD 1 0 = NOVID2 → mid.getD 2 0 = NOVID3 →
      mid.getD 3 0 = DEVTYP → mid.getD 4 0 ≠ KSTNID →
      mid.getD 4 0 ≠ ASTNID →
      (transcode (SOX :: mid ++ [EOX])).2 =
        some (.UnknownDeviceId (mid.getD 4 0)) ∧
      (transcode (SOX :: mid ++ [EOX])).1.out = []) ∧
    (mid.getD 0 0 = NOVID1 → mid.getD 1 0 = NOVID2 → mid.getD 2 0 = NOVID3 →
      mid.getD 3 0 = DEVTYP → mid.getD 4 0 = ASTNID →
      (transcode (SOX :: mid ++ [EOX])).2 = none ∧
      (transcode (SOX :: mid ++ [EOX])).1.out =
        (SOX :: mid ++ [EOX]).set 5 KSTNID) :=
  ⟨fun hbad => run_vendor_err initSt mid [] rfl hlen hm hbad,
   fun h1 h2 h3 h4 => run_devtype_err initSt mid [] rfl hlen hm h1 h2 h3 h4,
   fun h1 h2 h3 h4 h5 => run_already initSt mid [] rfl hlen hm h1 h2 h3 h4 h5,
   fun h1 h2 h3 h4 h5a h5b =>
     run_devid_err initSt mid [] rfl hlen hm h1 h2 h3 h4 h5a h5b,
   fun h1 h2 h3 h4 h5 => by
     have hrf := run_frame initSt mid rfl hlen hm h1 h2 h3 h4 h5
     constructor
     · show (run initSt (SOX :: mid ++ [EOX])).2 = none
       rw [hrf]
     · show (run initSt (SOX :: mid ++ [EOX])).1.out = _
       rw [hrf, ← frame_set5 mid hlen]
       simp [patchFrame, initSt]⟩

/-- Witness for C8: the all-garbage header aborts with the vendor check,
the first in the order, with no output. -/
theorem spec_c8_witness :
    (∃ k v, (transcode (SOX :: [0x09, 0x09, 0x09, 0x09, 0x09] ++ [EOX])).2 =
      some (.UnknownVendorId k v)) ∧
    (transcode (SOX :: [0x09, 0x09, 0x09, 0x09, 0x09] ++ [EOX])).1.out = [] :=
  (spec_c8 [0x09, 0x09, 0x09, 0x09, 0x09] (by decide) (by decide)).1
    (Or.inl (by decide))

/-- C10 fails as stated: with four stray bytes `[0x00, 0x00, 0x20, 0x29]`
between two well-formed frames, the run aborts with the device-type
failure (the shifted start marker 0xF0 is read at buffer offset 4), not
with a vendor-id failure. -/
theorem spec_c10_counterexample :
    (transcode ([SOX, NOVID1, NOVID2, NOVID3, DEVTYP, ASTNID, EOX] ++
      ([0x00, NOVID1, NOVID2, NOVID3] ++
        [SOX, NOVID1, NOVID2, NOVID3, DEVTYP, ASTNID, EOX]))).2 =
      some (.UnknownDeviceType SOX) ∧
    Option.map isUnknownVendorId
      (transcode ([SOX, NOVID1, NOVID2, NOVID3, DEVTYP, ASTNID, EOX] ++
        ([0x00, NOVID1, NOVID2, NOVID3] ++
          [SOX, NOVID1, NOVID2, NOVID3, DEVTYP, ASTNID, EOX]))).2 =
      some false := by decide

/-- C10 amended: with exactly one stray non-marker byte between a
well-formed frame and a following frame, the stray byte occupies buffer
offset 0, the next start marker shifts to offset 1, and the run aborts on
the second frame's end marker with the vendor-id failure at offset 1
reading the shifted start marker 0xF0; the strays are never passed
through. -/
theorem spec_c10_amended (mid1 mid2 : List Nat) (x : Nat)
    (hlen1 : 5 ≤ mid1.length) (hm1 : ∀ b ∈ mid1, b ≠ SOX ∧ b ≠ EOX)
    (h11 : mid1.getD 0 0 = NOVID1) (h12 : mid1.getD 1 0 = NOVID2)
    (h13 : mid1.getD 2 0 = NOVID3) (h14 : mid1.getD 3 0 = DEVTYP)
    (h15 : mid1.getD 4 0 = ASTNID)
    (hx1 : x ≠ SOX) (hx2 : x ≠ EOX)
    (hm2 : ∀ b ∈ mid2, b ≠ SOX ∧ b ≠ EOX) :
    (transcode ((SOX :: mid1 ++ [EOX]) ++
        ([x] ++ ((SOX :: mid2) ++ (EOX :: []))))).2 =
      some (.UnknownVendorId 1 SOX) ∧
    (transcode ((SOX :: mid1 ++ [EOX]) ++
        ([x] ++ ((SOX :: mid2) ++ (EOX :: []))))).1.out =
      patchFrame (SOX :: mid1 ++ [EOX]) := by
  have hrf := run_frame initSt mid1 rfl hlen1 hm1 h11 h12 h13 h14 h15
  have hs := run_stray_frame
    { buf := frameBuf initSt.buf mid1, pos := 0,
      counter := (mid1.length : Int) + 1,
      out := initSt.out ++ (SOX :: mid1.set 4 KSTNID ++ [EOX]),
      info := initSt.info ++ (diagLine (frameBuf initSt.buf mid1)).toList }
    x mid2 [] rfl (show ((mid1.length : Int) + 1) ≠ -1 by omega) hx1 hx2 hm2
  have hpo : (initSt.out ++ (SOX :: mid1.set 4 KSTNID ++ [EOX])) =
      patchFrame (SOX :: mid1 ++ [EOX]) := by
    rw [← frame_set5 mid1 hlen1]
    simp [initSt]
  constructor
  · show (run initSt _).2 = _
    rw [run_append_ok _ _ _ _ hrf]
    exact hs.1
  · show (run initSt _).1.out = _
    rw [run_append_ok _ _ _ _ hrf]
    exact hs.2.trans hpo

/-- Witness for the amended C10 with one stray zero byte. -/
theorem spec_c10_amended_witness :
    (transcode ((SOX :: [NOVID1, NOVID2, NOVID3, DEVTYP, ASTNID] ++ [EOX]) ++
        ([0x00] ++ ((SOX :: [NOVID1, NOVID2, NOVID3, DEVTYP, ASTNID]) ++
          (EOX :: []))))).2 = some (.UnknownVendorId 1 SOX) ∧
    (transcode ((SOX :: [NOVID1, NOVID2, NOVID3, DEVTYP, ASTNID] ++ [EOX]) ++
        ([0x00] ++ ((SOX :: [NOVID1, NOVID2, NOVID3, DEVTYP, ASTNID]) ++
          (EOX :: []))))).1.out =
      patchFrame (SOX :: [NOVID1, NOVID2, NOVID3, DEVTYP, ASTNID] ++ [EOX]) :=
  spec_c10_amended [NOVID1, NOVID2, NOVID3, DEVTYP, ASTNID]
    [NOVID1, NOVID2, NOVID3, DEVTYP, ASTNID] 0x00 (by decide) (by decide)
    rfl rfl rfl rfl rfl (by decide) (by decide) (by decide)

theorem transcode_info (mid : List Nat) (hlen : 5 ≤ mid.length)
    (hm : ∀ b ∈ mid, b ≠ SOX ∧ b ≠ EOX)
    (h1 : mid.getD 0 0 = NOVID1) (h2 : mid.getD 1 0 = NOVID2)
    (h3 : mid.getD 2 0 = NOVID3) (h4 : mid.getD 3 0 = DEVTYP)
    (h5 : mid.getD 4 0 = ASTNID) :
    (transcode (SOX :: mid ++ [EOX])).1.info =
      (diagLine (frameBuf initSt.buf mid)).toList := by
  show (run initSt (SOX :: mid ++ [EOX])).1.info = _
  rw [run_frame initSt mid rfl hlen hm h1 h2 h3 h4 h5]
  show ([] : List String) ++ (diagLine (frameBuf initSt.buf mid)).toList = _
  rw [List.nil_append]

/-- C6: the diagnostic line of a validated frame is determined by the
message type (frame offset 7), the bank-select mode (offset 8), the bank
(offset 11) and the program number (offset 12): a program dump with mode 1,
bank 3, program 7 yields exactly "PROGRAM BANK=3, PROGRAM NUMBER=7"; a
program-pair dump (mode 0 or 1) with program 10 reports
"PROGRAM NUMBER=10 and 11"; and a program-pair dump reports the bank
number even when the bank-select mode is 0. -/
theorem spec_c6 :
    (∀ mid : List Nat, 12 ≤ mid.length → (∀ b ∈ mid, b ≠ SOX ∧ b ≠ EOX) →
      mid.getD 0 0 = NOVID1 → mid.getD 1 0 = NOVID2 → mid.getD 2 0 = NOVID3 →
      mid.getD 3 0 = DEVTYP → mid.getD 4 0 = ASTNID →
      mid.getD 6 0 = MSGTYP_PRG → mid.getD 7 0 = 1 → mid.getD 10 0 = 3 →
      mid.getD 11 0 = 7 →
      (transcode (SOX :: mid ++ [EOX])).1.info =
        ["PROGRAM BANK=3, PROGRAM NUMBER=7"]) ∧
    (∀ mid : List Nat, 12 ≤ mid.length → (∀ b ∈ mid, b ≠ SOX ∧ b ≠ EOX) →
      mid.getD 0 0 = NOVID1 → mid.getD 1 0 = NOVID2 → mid.getD 2 0 = NOVID3 →
      mid.getD 3 0 = DEVTYP → mid.getD 4 0 = ASTNID →
      mid.getD 6 0 = MSGTYP_PAI → (mid.getD 7 0 = 0 ∨ mid.getD 7 0 = 1) →
      mid.getD 11 0 = 10 →
      (transcode (SOX :: mid ++ [EOX])).1.info =
        ["PROGRAM BANK=" ++ toString (mid.getD 10 0) ++
          ", PROGRAM NUMBER=10 and 11"]) ∧
    (∀ mid : List Nat, 12 ≤ mid.length → (∀ b ∈ mid, b ≠ SOX ∧ b ≠ EOX) →
      mid.getD 0 0 = NOVID1 → mid.getD 1 0 = NOVID2 → mid.getD 2 0 = NOVID3 →
      mid.getD 3 0 = DEVTYP → mid.getD 4 0 = ASTNID →
      mid.getD 6 0 = MSGTYP_PAI → mid.getD 7 0 = 0 →
      (transcode (SOX :: mid ++ [EOX])).1.info =
        ["PROGRAM BANK=" ++ toString (mid.getD 10 0) ++ ", PROGRAM NUMBER=" ++
          toString (mid.getD 11 0) ++ " and " ++
          toString (mid.getD 11 0 + 1)]) := by
  refine ⟨?_, ?_, ?_⟩
  · intro mid hlen hm h1 h2 h3 h4 h5 ht h8 hb hp
    rw [transcode_info mid (by omega) hm h1 h2 h3 h4 h5]
    have b7 : frameBuf initSt.buf mid 7 = mid.getD 6 0 :=
      frameBuf_at initSt.buf mid 7 (by omega) (by omega) (by omega)
    have b8 : frameBuf initSt.buf mid 8 = mid.getD 7 0 :=
      frameBuf_at initSt.buf mid 8 (by omega) (by omega) (by omega)
    have b11 : frameBuf initSt.buf mid 11 = mid.getD 10 0 :=
      frameBuf_at initSt.buf mid 11 (by omega) (by omega) (by omega)
    have b12 : frameBuf initSt.buf mid 12 = mid.getD 11 0 :=
      frameBuf_at initSt.buf mid 12 (by omega) (by omega) (by omega)
    rw [diagLine, b7, b8, b11, b12, ht, h8, hb, hp]
    decide
  · intro mid hlen hm h1 h2 h3 h4 h5 ht h8or hp10
    rw [transcode_info mid (by omega) hm h1 h2 h3 h4 h5]
    have b7 : frameBuf initSt.buf mid 7 = mid.getD 6 0 :=
      frameBuf_at initSt.buf mid 7 (by omega) (by omega) (by omega)
    have b8 : frameBuf initSt.buf mid 8 = mid.getD 7 0 :=
      frameBuf_at initSt.buf mid 8 (by omega) (by omega) (by omega)
    have b11 : frameBuf initSt.buf mid 11 = mid.getD 10 0 :=
      frameBuf_at initSt.buf mid 11 (by omega) (by omega) (by omega)
    have b12 : frameBuf initSt.buf mid 12 = mid.getD 11 0 :=
      frameBuf_at initSt.buf mid 12 (by omega) (by omega) (by omega)
    rw [diagLine, b7, b8, b11, b12, ht, hp10]
    rcases h8or with h8 | h8
    · rw [h8, if_neg (by decide), if_neg (by decide), if_pos rfl, if_pos rfl]
      simp only [Option.toList, String.append_assoc]
      rw [show (", PROGRAM NUMBER=" ++ (toString (10 : Nat) ++
        (" and " ++ toString ((10 : Nat) + 1)))) =
        ", PROGRAM NUMBER=10 and 11" from by decide]
    · rw [h8, if_neg (by decide), if_neg (by decide), if_pos rfl,
        if_neg (by decide), if_pos rfl]
      simp only [Option.toList, String.append_assoc]
      rw [show (", PROGRAM NUMBER=" ++ (toString (10 : Nat) ++
        (" and " ++ toString ((10 : Nat) + 1)))) =
        ", PROGRAM NUMBER=10 and 11" from by decide]
  · intro mid hlen hm h1 h2 h3 h4 h5 ht h8
    rw [transcode_info mid (by omega) hm h1 h2 h3 h4 h5]
    have b7 : frameBuf initSt.buf mid 7 = mid.getD 6 0 :=
      frameBuf_at initSt.buf mid 7 (by omega) (by omega) (by omega)
    have b8 : frameBuf initSt.buf mid 8 = mid.getD 7 0 :=
      frameBuf_at initSt.buf mid 8 (by omega) (by omega) (by omega)
    have b11 : frameBuf initSt.buf mid 11 = mid.getD 10 0 :=
      frameBuf_at initSt.buf mid 11 (by omega) (by omega) (by omega)
    have b12 : frameBuf initSt.buf mid 12 = mid.getD 11 0 :=
      frameBuf_at initSt.buf mid 12 (by omega) (by omega) (by omega)
    rw [diagLine, b7, b8, b11, b12, ht, h8,
      if_neg (by decide), if_neg (by decide), if_pos rfl, if_pos rfl]
    rfl

/-- Witness for C6 on three concrete frames. -/
theorem spec_c6_witness :
    (transcode (SOX :: [0x00, 0x20, 0x29, 0x01, 0x40, 0, 1, 1, 0, 0, 3, 7]
      ++ [EOX])).1.info = ["PROGRAM BANK=3, PROGRAM NUMBER=7"] ∧
    (transcode (SOX :: [0x00, 0x20, 0x29, 0x01, 0x40, 0, 2, 0, 0, 0, 5, 10]
      ++ [EOX])).1.info = ["PROGRAM BANK=5, PROGRAM NUMBER=10 and 11"] ∧
    (transcode (SOX :: [0x00, 0x20, 0x29, 0x01, 0x40, 0, 2, 0, 0, 0, 5, 9]
      ++ [EOX])).1.info = ["PROGRAM BANK=5, PROGRAM NUMBER=9 and 10"] := by
  refine ⟨?_, ?_, ?_⟩
  · exact spec_c6.1 [0x00, 0x20, 0x29, 0x01, 0x40, 0, 1, 1, 0, 0, 3, 7]
      (by decide) (by decide) rfl rfl rfl rfl rfl rfl rfl rfl rfl
  · exact (spec_c6.2.1 [0x00, 0x20, 0x29, 0x01, 0x40, 0, 2, 0, 0, 0, 5, 10]
      (by decide) (by decide) rfl rfl rfl rfl rfl rfl (Or.inl rfl)
      rfl).trans (by decide)
  · exact (spec_c6.2.2 [0x00, 0x20, 0x29, 0x01, 0x40, 0, 2, 0, 0, 0, 5, 9]
      (by decide) (by decide) rfl rfl rfl rfl rfl rfl rfl).trans (by decide)

end A2V
